import Mathlib

/-!
Shallow embedding of `src/conway/__init__.py` (package `conway`, class
`FiniteGrid`) and proofs about it.

Modelling conventions:
* The numpy buffer `self.states` (shape `(N+2, N+2)`) is a total function
  `Nat → Nat → Nat`; only indices `0 .. N+1` are meaningful.  numpy slice
  assignments are translated as sequential functional updates, in the exact
  order the Python statements execute.
* The nondeterministic random initial buffer produced by
  `rng.integers(0, high=2, size=(N+2,N+2))` is passed to the constructor as an
  explicit argument.
* Python exceptions are modelled with an explicit error type `PyError`;
  `apply_bc` returns the post-state together with the raised error (if any),
  because the Python method mutates `self.bc` before it validates it, and that
  mutation survives the raised `ValueError`.
* Rendering (`print`, `curse`, the `draw`/`curse`/`interval` parameters of
  `evolve`) only writes to the terminal; called without a `symbols` argument,
  as `evolve` does, it mutates no field of the grid, so it is omitted here.
* Pickle persistence is modelled by passing the pickled object itself around:
  `dump` returns the mutated live grid together with the payload written to
  `<filename>.pickle`, and `load` consumes the deserialized content of such a
  file (`Pickled.finiteGrid g` when the file held a `FiniteGrid`,
  `Pickled.otherObject` when it held anything else).
-/

namespace Conway

/-- Python exceptions that the `conway` code can raise. -/
inductive PyError where
  | valueError (msg : String)
  | runtimeError (msg : String)
  | attributeError (name : String)
deriving DecidableEq, Repr

/-- The fields of a `FiniteGrid` object (`self.N`, `self.states`, `self.bc`,
`self.generation`, `self.counts`, `self.symbols`).  The `counts` scratch
buffer is `Option`al because Python initializes it to `None`. -/
structure FiniteGrid where
  N : Nat
  states : Nat → Nat → Nat
  bc : String
  generation : Nat
  counts : Option (Nat → Nat → Nat)
  symbols : String

/-- `charsStartWith s p = true` iff `p` is a prefix of `s`; this is the Python call `s.startswith(p)` on the character lists of the two strings. -/
def charsStartWith : List Char → List Char → Bool
  | _, [] => true
  | [], _ :: _ => false
  | a :: as, b :: bs => (a == b) && charsStartWith as bs

/-- Python `s.startswith(p)`. -/
def pyStartswith (s p : String) : Bool :=
  charsStartWith s.data p.data

/-- The message of the `ValueError` raised by `FiniteGrid.__init__` and
`FiniteGrid.apply_bc` for an unrecognized boundary string (quotes elided). -/
def bcErrMsg : String := "boundary not in (zero, reflect, periodic)"

/-- The message of the `RuntimeError` raised by `FiniteGrid.load` when the
pickle file does not hold a `FiniteGrid` (filename and quotes elided). -/
def loadErrMsg : String := "File does not contain a FiniteGrid object."

/-- `FiniteGrid.apply_0bc`: the four numpy slice assignments
`states[:, 0] = 0`, `states[:, N+1] = 0`, `states[0, 1:N+1] = 0`,
`states[N+1, 1:N+1] = 0`, executed in that order. -/
def apply_0bc (N : Nat) (s : Nat → Nat → Nat) : Nat → Nat → Nat :=
  let s1 := fun i j => if j = 0 then 0 else s i j
  let s2 := fun i j => if j = N + 1 then 0 else s1 i j
  let s3 := fun i j => if i = 0 ∧ 1 ≤ j ∧ j ≤ N then 0 else s2 i j
  let s4 := fun i j => if i = N + 1 ∧ 1 ≤ j ∧ j ≤ N then 0 else s3 i j
  s4

/-- `FiniteGrid.apply_rbc`: the four numpy slice assignments
`states[:, 0] = states[:, 1]`, `states[:, N+1] = states[:, N]`,
`states[0, :] = states[1, :]`, `states[N+1, :] = states[N, :]`, executed in
that order (each assignment reads the buffer as left by the previous one). -/
def apply_rbc (N : Nat) (s : Nat → Nat → Nat) : Nat → Nat → Nat :=
  let s1 := fun i j => if j = 0 then s i 1 else s i j
  let s2 := fun i j => if j = N + 1 then s1 i N else s1 i j
  let s3 := fun i j => if i = 0 then s2 1 j else s2 i j
  let s4 := fun i j => if i = N + 1 then s3 N j else s3 i j
  s4

/-- The first half of `FiniteGrid.apply_pbc` (the statements under the
`# edges` comment): the four edge slice assignments
`states[1:N+1, 0] = states[1:N+1, N]`, `states[1:N+1, N+1] = states[1:N+1, 1]`,
`states[0, 1:N+1] = states[N, 1:N+1]`, `states[N+1, 1:N+1] = states[1, 1:N+1]`,
in source order. -/
def pbcEdges (N : Nat) (s : Nat → Nat → Nat) : Nat → Nat → Nat :=
  let s1 := fun i j => if 1 ≤ i ∧ i ≤ N ∧ j = 0 then s i N else s i j
  let s2 := fun i j => if 1 ≤ i ∧ i ≤ N ∧ j = N + 1 then s1 i 1 else s1 i j
  let s3 := fun i j => if i = 0 ∧ 1 ≤ j ∧ j ≤ N then s2 N j else s2 i j
  let s4 := fun i j => if i = N + 1 ∧ 1 ≤ j ∧ j ≤ N then s3 1 j else s3 i j
  s4

/-- `FiniteGrid.apply_pbc`: the edge assignments of `pbcEdges` followed by the
four corner assignments (the statements under the `# corners` comment)
`states[0,0] = states[N,N]`, `states[N+1,N+1] = states[1,1]`,
`states[0,N+1] = states[N,1]`, `states[N+1,0] = states[1,N]`, in source
order. -/
def apply_pbc (N : Nat) (s : Nat → Nat → Nat) : Nat → Nat → Nat :=
  let t := pbcEdges N s
  let s5 := fun i j => if i = 0 ∧ j = 0 then t N N else t i j
  let s6 := fun i j => if i = N + 1 ∧ j = N + 1 then s5 1 1 else s5 i j
  let s7 := fun i j => if i = 0 ∧ j = N + 1 then s6 N 1 else s6 i j
  let s8 := fun i j => if i = N + 1 ∧ j = 0 then s7 1 N else s7 i j
  s8

/-- `FiniteGrid.apply_bc(bc)`: if `bc` is not `None` it is stored into
`self.bc` FIRST; then the stored mode is dispatched by exact string equality,
and an unrecognized stored mode raises `ValueError` — after the store already
happened.  The result is the post-state of the object paired with the raised
error, if any. -/
def apply_bc (g : FiniteGrid) (bc : Option String) : FiniteGrid × Option PyError :=
  let g1 := match bc with
    | some b => { g with bc := b }
    | none => g
  if g1.bc = "zero" then ({ g1 with states := apply_0bc g1.N g1.states }, none)
  else if g1.bc = "reflect" then ({ g1 with states := apply_rbc g1.N g1.states }, none)
  else if g1.bc = "periodic" then ({ g1 with states := apply_pbc g1.N g1.states }, none)
  else (g1, some (PyError.valueError bcErrMsg))

/-- `FiniteGrid.__init__` (the non-`load` path).  `init_states` stands for the
random `(N+2)×(N+2)` buffer drawn from the rng.  The boundary string is
matched by `startswith`: the mode name `zero`, then `reflect`, then
`periodic`, is asked whether `boundary` is a PREFIX of it, so any prefix of a
mode name is accepted, the `zero` branch being tested first.  The `reflect` branch
calls the nonexistent method `self.apply_rbv()` (the method defined on the
class is `apply_rbc`), so it raises `AttributeError` and the construction
fails; the final `else` raises `ValueError`. -/
def FiniteGrid.init (N : Nat) (boundary : String) (init_states : Nat → Nat → Nat) :
    Except PyError FiniteGrid :=
  if pyStartswith "zero" boundary then
    Except.ok
      { N := N, states := apply_0bc N init_states, bc := "zero",
        generation := 0, counts := none, symbols := " X" }
  else if pyStartswith "reflect" boundary then
    Except.error (PyError.attributeError "apply_rbv")
  else if pyStartswith "periodic" boundary then
    Except.ok
      { N := N, states := apply_pbc N init_states, bc := "periodic",
        generation := 0, counts := none, symbols := " X" }
  else
    Except.error (PyError.valueError bcErrMsg)

/-- The neighbor sum computed into `self.counts[i, j]` by the first inner loop
of `evolve`: the sum of the eight cells surrounding `(i, j)` in the current
buffer (ghost cells included). -/
def neighborCount (s : Nat → Nat → Nat) (i j : Nat) : Nat :=
  s (i - 1) (j - 1) + s (i - 1) j + s (i - 1) (j + 1) +
  s i (j - 1) + s i (j + 1) +
  s (i + 1) (j - 1) + s (i + 1) j + s (i + 1) (j + 1)

/-- The second inner loop of `evolve` at one cell: `states[i,j] == True` (for
the 0/1 numpy ints this means `= 1`) with a count other than 2 or 3 is set to
`False` (`0`); a dead cell with count exactly 3 is set to `True` (`1`);
otherwise the cell keeps its value.  This loop reads `states` only at `(i,j)`
itself (all neighbor information comes from `counts`), so although Python
mutates in place, the update of each cell is independent of the others. -/
def updateCell (s c : Nat → Nat → Nat) (i j : Nat) : Nat :=
  if s i j = 1 then
    (if c i j = 2 ∨ c i j = 3 then s i j else 0)
  else
    (if c i j = 3 then 1 else s i j)

/-- The first inner double loop of `evolve` (`for i in range(1,N+1): for j in
range(1,N+1): self.counts[i,j] = ...`): the counts buffer after the full
counting pass.  Interior entries hold the neighbor sums of the CURRENT
states; entries outside the interior keep their previous value (zeros when
`self.counts` was just allocated by `np.zeros_like`). -/
def evolveCounts (g : FiniteGrid) : Nat → Nat → Nat :=
  fun i j =>
    if 1 ≤ i ∧ i ≤ g.N ∧ 1 ≤ j ∧ j ≤ g.N then neighborCount g.states i j
    else (g.counts.getD (fun _ _ => 0)) i j

/-- The second inner double loop of `evolve`: the states buffer after the full
update pass.  Although Python updates `self.states` in place, this loop reads
`states` only at the cell `(i,j)` it is writing (all neighbor information
comes from the counts computed by the completed first pass), so the new value
of each cell depends only on the pre-pass buffer and the update order is
irrelevant. -/
def evolveStates (g : FiniteGrid) : Nat → Nat → Nat :=
  fun i j =>
    if 1 ≤ i ∧ i ≤ g.N ∧ 1 ≤ j ∧ j ≤ g.N then updateCell g.states (evolveCounts g) i j
    else g.states i j

/-- One iteration of the `while n_generations > 0` loop body of
`FiniteGrid.evolve`: the full counting pass over the interior (writing
`counts`), then the full update pass over the interior, then
`self.apply_bc()` (which can in principle raise, aborting the iteration
before the generation increment), then `self.generation += 1`. -/
def evolveOnce (g : FiniteGrid) : FiniteGrid × Option PyError :=
  let g1 := { g with states := evolveStates g, counts := some (evolveCounts g) }
  match apply_bc g1 none with
  | (g2, none) => ({ g2 with generation := g2.generation + 1 }, none)
  | (g2, some e) => (g2, some e)

/-- The `while n_generations > 0` loop of `FiniteGrid.evolve`, by recursion on
`n_generations`.  After each completed iteration the source checks

    if np.sum(self.states) == 0:  generations = 0
    if stop_if_static and np.all(previous_states == self.states):  generations = 0

Both checks assign to a FRESH local variable `generations`; the loop variable
is `n_generations`, which is only ever decremented by 1.  The assignments are
dead stores, so neither check ever terminates the loop, and the
`previous_states` snapshot taken when `stop_if_static` is true is never
otherwise used.  The loop therefore always runs the full `n_generations`
iterations (unless `apply_bc` raises). -/
def evolveLoop (stop_if_static : Bool) : Nat → FiniteGrid → FiniteGrid × Option PyError
  | 0, g => (g, none)
  | n + 1, g =>
    match evolveOnce g with
    | (g1, none) => evolveLoop stop_if_static n g1
    | (g1, some e) => (g1, some e)

/-- `FiniteGrid.evolve(n_generations, stop_if_static=...)` (rendering
parameters omitted, see the module docstring): first `self.counts` is
allocated as a zero buffer if it is `None`, then the loop runs. -/
def evolve (g : FiniteGrid) (n_generations : Nat) (stop_if_static : Bool) :
    FiniteGrid × Option PyError :=
  let g0 := match g.counts with
    | none => { g with counts := some (fun _ _ => 0) }
    | some _ => g
  evolveLoop stop_if_static n_generations g0

/-- `FiniteGrid.dump(filename)`: sets `self.counts = None` on the live object,
then pickles the object to `<filename>.pickle`.  Returns (live object after
the call, pickled payload). -/
def dump (g : FiniteGrid) : FiniteGrid × FiniteGrid :=
  let g1 := { g with counts := none }
  (g1, g1)

/-- The deserialized content of a pickle file: either a `FiniteGrid` object or
some object of any other type. -/
inductive Pickled where
  | finiteGrid (g : FiniteGrid)
  | otherObject

/-- `FiniteGrid.load(filename)` applied to the deserialized content of the
file: a `FiniteGrid` is returned as-is; anything else raises `RuntimeError`. -/
def load : Pickled → Except PyError FiniteGrid
  | Pickled.finiteGrid g => Except.ok g
  | Pickled.otherObject => Except.error (PyError.runtimeError loadErrMsg)

/-- `true` iff the constructor call succeeded (no exception escaped
`__init__`). -/
def initOk : Except PyError FiniteGrid → Bool
  | Except.ok _ => true
  | Except.error _ => false

/-- The boundary mode stored on a successfully constructed grid, `none` when
construction raised. -/
def initBc : Except PyError FiniteGrid → Option String
  | Except.ok g => some g.bc
  | Except.error _ => none

/-- Discriminator for the three exception classes (used to state that two
errors are of distinct classes without a negated equation). -/
def errClass : PyError → Nat
  | PyError.valueError _ => 0
  | PyError.runtimeError _ => 1
  | PyError.attributeError _ => 2

/-- Decidable pointwise equality of two buffers on the square `[0, n) × [0, n)`. -/
def statesEqOn (n : Nat) (s t : Nat → Nat → Nat) : Bool :=
  decide (∀ i, i < n → ∀ j, j < n → s i j = t i j)

/-- Index map realized by `apply_rbc`: ghost index `0` reads interior index
`1`, ghost index `N+1` reads interior index `N`, other indices read
themselves. -/
def reflIdx (N x : Nat) : Nat :=
  if x = 0 then 1 else if x = N + 1 then N else x

/-- Index map realized by `apply_pbc` on the buffer: ghost index `0` reads the
opposite interior index `N`, ghost index `N+1` reads interior index `1`. -/
def wrapIdx (N x : Nat) : Nat :=
  if x = 0 then N else if x = N + 1 then 1 else x

/-- A 1×1 grid under the zero boundary mode whose whole 3×3 buffer is dead. -/
def deadGrid : FiniteGrid :=
  { N := 1, states := fun _ _ => 0, bc := "zero", generation := 0,
    counts := none, symbols := " X" }

/-- Buffer of a 4×4 grid holding a 2×2 block of live cells at rows 2-3,
columns 2-3 — a still life fully surrounded by dead cells. -/
def blockStates : Nat → Nat → Nat :=
  fun i j => if (i = 2 ∨ i = 3) ∧ (j = 2 ∨ j = 3) then 1 else 0

/-- The still-life block grid under the zero boundary mode. -/
def blockGrid : FiniteGrid :=
  { N := 4, states := blockStates, bc := "zero", generation := 0,
    counts := none, symbols := " X" }

/-- Buffer of a 3×3 grid holding a vertical line of three live cells in
column 2 (the blinker used as concrete scenario by the spec). -/
def lineStates : Nat → Nat → Nat :=
  fun i j => if j = 2 ∧ 1 ≤ i ∧ i ≤ 3 then 1 else 0

/-- The blinker grid under the zero boundary mode. -/
def lineGrid : FiniteGrid :=
  { N := 3, states := lineStates, bc := "zero", generation := 0,
    counts := none, symbols := " X" }

theorem apply_0bc_eq (N : Nat) (s : Nat → Nat → Nat) (i j : Nat) :
    apply_0bc N s i j =
      if j = 0 ∨ j = N + 1 ∨ ((i = 0 ∨ i = N + 1) ∧ 1 ≤ j ∧ j ≤ N) then 0
      else s i j := by
  simp only [apply_0bc]
  split_ifs <;> first | rfl | omega

theorem apply_rbc_eq {N : Nat} (hN : 1 ≤ N) (s : Nat → Nat → Nat) (i j : Nat) :
    apply_rbc N s i j = s (reflIdx N i) (reflIdx N j) := by
  simp only [apply_rbc, reflIdx]
  split_ifs <;>
    first
      | rfl
      | omega
      | (congr 1 <;> first | omega | (congr 1 <;> omega))

theorem pbcEdges_eq {N : Nat} (hN : 1 ≤ N) (s : Nat → Nat → Nat) (i j : Nat) :
    pbcEdges N s i j =
      if 1 ≤ i ∧ i ≤ N ∧ j = 0 then s i N
      else if 1 ≤ i ∧ i ≤ N ∧ j = N + 1 then s i 1
      else if i = 0 ∧ 1 ≤ j ∧ j ≤ N then s N j
      else if i = N + 1 ∧ 1 ≤ j ∧ j ≤ N then s 1 j
      else s i j := by
  simp only [pbcEdges]
  split_ifs <;>
    first
      | rfl
      | omega
      | (congr 1 <;> first | omega | (congr 1 <;> omega))
      | simp_all

theorem apply_pbc_corners (N : Nat) (s : Nat → Nat → Nat) (i j : Nat) :
    apply_pbc N s i j =
      if i = N + 1 ∧ j = 0 then pbcEdges N s 1 N
      else if i = 0 ∧ j = N + 1 then pbcEdges N s N 1
      else if i = N + 1 ∧ j = N + 1 then pbcEdges N s 1 1
      else if i = 0 ∧ j = 0 then pbcEdges N s N N
      else pbcEdges N s i j := by
  simp only [apply_pbc]
  split_ifs <;>
    first
      | rfl
      | omega
      | (congr 1 <;> first | omega | (congr 1 <;> omega))
      | simp_all

set_option maxHeartbeats 1000000 in
theorem apply_pbc_eq {N : Nat} (hN : 1 ≤ N) (s : Nat → Nat → Nat) {i j : Nat}
    (hi : i ≤ N + 1) (hj : j ≤ N + 1) :
    apply_pbc N s i j = s (wrapIdx N i) (wrapIdx N j) := by
  rw [apply_pbc_corners]
  simp only [pbcEdges_eq hN, wrapIdx]
  split_ifs <;>
    first
      | rfl
      | omega
      | (congr 1 <;> first | omega | (congr 1 <;> omega))
      | simp_all

theorem reflIdx_reflIdx {N : Nat} (hN : 1 ≤ N) (x : Nat) :
    reflIdx N (reflIdx N x) = reflIdx N x := by
  rcases eq_or_ne x 0 with h0 | h0
  · subst h0
    simp only [reflIdx]
    split_ifs <;> omega
  · rcases eq_or_ne x (N + 1) with h1 | h1
    · subst h1
      simp only [reflIdx]
      split_ifs <;> omega
    · simp only [reflIdx, if_neg h0, if_neg h1]

theorem wrapIdx_le {N x : Nat} (hx : x ≤ N + 1) : wrapIdx N x ≤ N + 1 := by
  simp only [wrapIdx]
  split_ifs <;> omega

theorem wrapIdx_wrapIdx {N : Nat} (hN : 1 ≤ N) {x : Nat} (hx : x ≤ N + 1) :
    wrapIdx N (wrapIdx N x) = wrapIdx N x := by
  rcases eq_or_ne x 0 with h0 | h0
  · subst h0
    simp only [wrapIdx]
    split_ifs <;> omega
  · rcases eq_or_ne x (N + 1) with h1 | h1
    · subst h1
      simp only [wrapIdx]
      split_ifs <;> omega
    · simp only [wrapIdx, if_neg h0, if_neg h1]

theorem apply_0bc_idem (N : Nat) (s : Nat → Nat → Nat) (i j : Nat) :
    apply_0bc N (apply_0bc N s) i j = apply_0bc N s i j := by
  simp only [apply_0bc_eq]
  split_ifs <;> rfl

theorem apply_rbc_idem {N : Nat} (hN : 1 ≤ N) (s : Nat → Nat → Nat) (i j : Nat) :
    apply_rbc N (apply_rbc N s) i j = apply_rbc N s i j := by
  rw [apply_rbc_eq hN, apply_rbc_eq hN, apply_rbc_eq hN,
    reflIdx_reflIdx hN, reflIdx_reflIdx hN]

theorem apply_pbc_idem {N : Nat} (hN : 1 ≤ N) (s : Nat → Nat → Nat) {i j : Nat}
    (hi : i ≤ N + 1) (hj : j ≤ N + 1) :
    apply_pbc N (apply_pbc N s) i j = apply_pbc N s i j := by
  rw [apply_pbc_eq hN _ hi hj, apply_pbc_eq hN _ (wrapIdx_le hi) (wrapIdx_le hj),
    apply_pbc_eq hN _ hi hj, wrapIdx_wrapIdx hN hi, wrapIdx_wrapIdx hN hj]

/-- Interior cells are untouched by the zero boundary pass. -/
theorem apply_0bc_interior {N i j : Nat} (s : Nat → Nat → Nat)
    (hi1 : 1 ≤ i) (hi2 : i ≤ N) (hj1 : 1 ≤ j) (hj2 : j ≤ N) :
    apply_0bc N s i j = s i j := by
  rw [apply_0bc_eq, if_neg]
  omega

/-- Interior cells are untouched by the reflecting boundary pass. -/
theorem apply_rbc_interior {N i j : Nat} (s : Nat → Nat → Nat)
    (hi1 : 1 ≤ i) (hi2 : i ≤ N) (hj1 : 1 ≤ j) (hj2 : j ≤ N) :
    apply_rbc N s i j = s i j := by
  have hN : 1 ≤ N := le_trans hi1 hi2
  rw [apply_rbc_eq hN]
  have h1 : reflIdx N i = i := by simp only [reflIdx]; split_ifs <;> omega
  have h2 : reflIdx N j = j := by simp only [reflIdx]; split_ifs <;> omega
  rw [h1, h2]

/-- Interior cells are untouched by the periodic boundary pass. -/
theorem apply_pbc_interior {N i j : Nat} (s : Nat → Nat → Nat)
    (hi1 : 1 ≤ i) (hi2 : i ≤ N) (hj1 : 1 ≤ j) (hj2 : j ≤ N) :
    apply_pbc N s i j = s i j := by
  have hN : 1 ≤ N := le_trans hi1 hi2
  rw [apply_pbc_eq hN _ (by omega) (by omega)]
  have h1 : wrapIdx N i = i := by simp only [wrapIdx]; split_ifs <;> omega
  have h2 : wrapIdx N j = j := by simp only [wrapIdx]; split_ifs <;> omega
  rw [h1, h2]

/-- The value of an interior cell after one evolve iteration: the boundary
pass that the iteration performs at its end only writes ghost cells, so the
interior cell holds exactly what the update pass wrote. -/
theorem evolveOnce_interior (g : FiniteGrid)
    (hbc : g.bc = "zero" ∨ g.bc = "reflect" ∨ g.bc = "periodic")
    (i j : Nat) (hi1 : 1 ≤ i) (hi2 : i ≤ g.N) (hj1 : 1 ≤ j) (hj2 : j ≤ g.N) :
    (evolveOnce g).fst.states i j = updateCell g.states (evolveCounts g) i j := by
  rcases hbc with h | h | h
  · have hd : (evolveOnce g).fst.states i j = apply_0bc g.N (evolveStates g) i j := by
      simp [evolveOnce, apply_bc, h]
    rw [hd, apply_0bc_interior _ hi1 hi2 hj1 hj2]
    simp [evolveStates, hi1, hi2, hj1, hj2]
  · have hd : (evolveOnce g).fst.states i j = apply_rbc g.N (evolveStates g) i j := by
      simp [evolveOnce, apply_bc, h]
    rw [hd, apply_rbc_interior _ hi1 hi2 hj1 hj2]
    simp [evolveStates, hi1, hi2, hj1, hj2]
  · have hd : (evolveOnce g).fst.states i j = apply_pbc g.N (evolveStates g) i j := by
      simp [evolveOnce, apply_bc, h]
    rw [hd, apply_pbc_interior _ hi1 hi2 hj1 hj2]
    simp [evolveStates, hi1, hi2, hj1, hj2]

/-- C1: with an all-dead interior, `evolve(2)` is claimed to abandon the
second step right after the first extinction check, leaving `generation = 1`.
The extinction check assigns the dead local variable `generations`, so the
code runs BOTH steps: `generation` ends at 2 (the buffer does stay dead). -/
theorem extinction_stop_never_fires :
    (evolve deadGrid 2 false).fst.generation = 2 ∧
    (evolve deadGrid 2 false).snd = none ∧
    statesEqOn 3 (evolve deadGrid 2 false).fst.states deadGrid.states = true := by
  refine ⟨by decide, by decide, by decide⟩

/-- C2: with the still-life 2×2 block and `stop_if_static=True`, `evolve(2)`
is claimed to terminate after exactly 1 completed step.  The static check
assigns the dead local variable `generations`, so the code runs BOTH steps:
`generation` ends at 2 (the interior is indeed unchanged). -/
theorem static_stop_never_fires :
    (evolve blockGrid 2 true).fst.generation = 2 ∧
    (evolve blockGrid 2 true).snd = none ∧
    statesEqOn 6 (evolve blockGrid 2 true).fst.states blockGrid.states = true := by
  refine ⟨by decide, by decide, by decide⟩

/-- C3: construction with the recognized mode string `reflect` does not
produce a boundary-consistent grid: the reflect branch of the constructor calls
the nonexistent method `apply_rbv`, so construction raises `AttributeError`
instead of populating any ghost cell. -/
theorem reflect_construction_raises :
    FiniteGrid.init 3 "reflect" (fun _ _ => 1) =
      Except.error (PyError.attributeError "apply_rbv") := rfl

/-- C4: one evolve step updates every interior cell by the synchronous
Conway rule, the neighbor count being the sum of the 8 surrounding buffer
cells (ghosts included) of the PRE-step states: a live cell survives exactly
on counts 2 and 3, a dead cell is born exactly on count 3. -/
theorem evolve_step_rule (g : FiniteGrid)
    (hbc : g.bc = "zero" ∨ g.bc = "reflect" ∨ g.bc = "periodic")
    (i j : Nat) (hi1 : 1 ≤ i) (hi2 : i ≤ g.N) (hj1 : 1 ≤ j) (hj2 : j ≤ g.N) :
    (g.states i j = 1 →
      ((neighborCount g.states i j = 2 ∨ neighborCount g.states i j = 3) →
        (evolveOnce g).fst.states i j = 1) ∧
      (¬(neighborCount g.states i j = 2 ∨ neighborCount g.states i j = 3) →
        (evolveOnce g).fst.states i j = 0)) ∧
    (g.states i j = 0 →
      (neighborCount g.states i j = 3 → (evolveOnce g).fst.states i j = 1) ∧
      (neighborCount g.states i j ≠ 3 → (evolveOnce g).fst.states i j = 0)) := by
  have hc : evolveCounts g i j = neighborCount g.states i j := by
    simp [evolveCounts, hi1, hi2, hj1, hj2]
  have hs := evolveOnce_interior g hbc i j hi1 hi2 hj1 hj2
  simp only [updateCell] at hs
  rw [hc] at hs
  constructor
  · intro h1
    constructor
    · intro h2
      rw [hs]
      simp [h1, h2]
    · intro h2
      rw [hs]
      simp [h1, h2]
  · intro h1
    constructor
    · intro h2
      rw [hs]
      simp [h1, h2]
    · intro h2
      rw [hs]
      simp [h1, h2]

/-- C4 witness: the center cell of the blinker is alive with exactly 2 live
neighbors, and survives one evolve step. -/
theorem evolve_step_rule_witness :
    lineGrid.states 2 2 = 1 ∧ neighborCount lineGrid.states 2 2 = 2 ∧
    (evolveOnce lineGrid).fst.states 2 2 = 1 :=
  ⟨by decide, by decide,
    ((evolve_step_rule lineGrid (Or.inl rfl) 2 2 (by decide) (by decide) (by decide)
        (by decide)).1 (by decide)).1 (Or.inl (by decide))⟩

/-- C5 counterexample: the string `z` is not one of the three recognized mode
strings, yet construction accepts it and silently stores the mode `zero`. -/
theorem init_accepts_prefix_z :
    initBc (FiniteGrid.init 2 "z" (fun _ _ => 0)) = some "zero" ∧
    ("z" == "zero") = false ∧ ("z" == "reflect") = false ∧
    ("z" == "periodic") = false := by
  refine ⟨by decide, by decide, by decide, by decide⟩

/-- C5 (amended): at construction a boundary string raises `ValueError`
exactly when it is a prefix of none of the three mode names (prefixes are
silently accepted); at explicit mode change (`apply_bc`) every string other
than the three exact mode strings raises `ValueError`. -/
theorem unrecognized_boundary_rejected (N : Nat) (b : String) (s : Nat → Nat → Nat)
    (g : FiniteGrid) (b2 : String)
    (h1 : pyStartswith "zero" b = false) (h2 : pyStartswith "reflect" b = false)
    (h3 : pyStartswith "periodic" b = false)
    (h4 : b2 ≠ "zero") (h5 : b2 ≠ "reflect") (h6 : b2 ≠ "periodic") :
    FiniteGrid.init N b s = Except.error (PyError.valueError bcErrMsg) ∧
    (apply_bc g (some b2)).snd = some (PyError.valueError bcErrMsg) := by
  constructor
  · simp [FiniteGrid.init, h1, h2, h3]
  · simp [apply_bc, h4, h5, h6]

/-- C5 witness: the string `bogus` is rejected both at construction and at
explicit mode change. -/
theorem unrecognized_boundary_rejected_witness :
    FiniteGrid.init 1 "bogus" (fun _ _ => 0) =
      Except.error (PyError.valueError bcErrMsg) ∧
    (apply_bc deadGrid (some "bogus")).snd = some (PyError.valueError bcErrMsg) :=
  unrecognized_boundary_rejected 1 "bogus" (fun _ _ => 0) deadGrid "bogus"
    (by decide) (by decide) (by decide) (by decide) (by decide) (by decide)

/-- C6: restoring from the snapshot written by `dump` yields a grid identical
to the dumped one in `N`, `bc`, `generation` and every cell of the full
buffer (the `counts` scratch field is not preserved — it is dumped as
`None`). -/
theorem dump_load_roundtrip (g : FiniteGrid) :
    ∃ g2, load (Pickled.finiteGrid (dump g).snd) = Except.ok g2 ∧
      g2.N = g.N ∧ g2.bc = g.bc ∧ g2.generation = g.generation ∧
      ∀ i j, g2.states i j = g.states i j :=
  ⟨{ g with counts := none }, rfl, rfl, rfl, rfl, fun _ _ => rfl⟩

/-- C7: re-applying the current boundary mode of the grid to a grid whose ghost
border was just made consistent by `apply_bc` changes no cell of the buffer,
for each of the three modes. -/
theorem apply_bc_idempotent (g : FiniteGrid)
    (hbc : g.bc = "zero" ∨ g.bc = "reflect" ∨ g.bc = "periodic")
    (hN : 1 ≤ g.N) (i j : Nat) (hi : i ≤ g.N + 1) (hj : j ≤ g.N + 1) :
    (apply_bc (apply_bc g none).fst none).fst.states i j =
      (apply_bc g none).fst.states i j := by
  rcases hbc with h | h | h
  · simp [apply_bc, h, apply_0bc_idem]
  · simp [apply_bc, h, apply_rbc_idem hN]
  · simp only [apply_bc, h]
    simp
    exact apply_pbc_idem hN _ hi hj

/-- C7 witness: the top-left ghost corner of the blinker grid is unchanged by
a second zero-boundary application. -/
theorem apply_bc_idempotent_witness :
    (apply_bc (apply_bc lineGrid none).fst none).fst.states 0 0 =
      (apply_bc lineGrid none).fst.states 0 0 :=
  apply_bc_idempotent lineGrid (Or.inl rfl) (by decide) 0 0 (by decide) (by decide)

/-- C8: restoring from a readable pickle that does not hold a `FiniteGrid`
raises `RuntimeError` — an error class distinct from the `ValueError` used
for configuration errors — and returns no grid. -/
theorem load_wrong_type_raises :
    load Pickled.otherObject = Except.error (PyError.runtimeError loadErrMsg) ∧
    errClass (PyError.runtimeError loadErrMsg) = 1 ∧
    errClass (PyError.valueError bcErrMsg) = 0 ∧
    (errClass (PyError.runtimeError loadErrMsg) ==
      errClass (PyError.valueError bcErrMsg)) = false :=
  ⟨rfl, rfl, rfl, rfl⟩

/-- C9: `apply_bc` with an unrecognized mode string raises `ValueError`, but
only after storing the string into `self.bc`; the grid is left with the
invalid mode and a subsequent no-argument `apply_bc()` raises again. -/
theorem apply_bc_not_atomic (g : FiniteGrid) (b : String)
    (h1 : b ≠ "zero") (h2 : b ≠ "reflect") (h3 : b ≠ "periodic") :
    (apply_bc g (some b)).snd = some (PyError.valueError bcErrMsg) ∧
    (apply_bc g (some b)).fst.bc = b ∧
    (apply_bc (apply_bc g (some b)).fst none).snd =
      some (PyError.valueError bcErrMsg) := by
  refine ⟨?_, ?_, ?_⟩ <;> simp [apply_bc, h1, h2, h3]

/-- C9 witness: `apply_bc` with the string `nonsense` on the block grid. -/
theorem apply_bc_not_atomic_witness :
    (apply_bc blockGrid (some "nonsense")).snd =
      some (PyError.valueError bcErrMsg) ∧
    (apply_bc blockGrid (some "nonsense")).fst.bc = "nonsense" ∧
    (apply_bc (apply_bc blockGrid (some "nonsense")).fst none).snd =
      some (PyError.valueError bcErrMsg) :=
  apply_bc_not_atomic blockGrid "nonsense" (by decide) (by decide) (by decide)

/-- C10: `dump` sets the `counts` scratch field of the live grid to `None` and
leaves `N`, `bc`, `generation` and every buffer cell unchanged. -/
theorem dump_mutates_counts_only (g : FiniteGrid) :
    (dump g).fst.counts = none ∧ (dump g).fst.N = g.N ∧
    (dump g).fst.bc = g.bc ∧ (dump g).fst.generation = g.generation ∧
    ∀ i j, (dump g).fst.states i j = g.states i j :=
  ⟨rfl, rfl, rfl, rfl, fun _ _ => rfl⟩

end Conway
